import Mathlib

/-!
A shallow embedding of the JSON-RPC plugin engine in
`contrib/pylightning/lightning/plugin.py`, together with theorems about its
framing, dispatch, registration, manifest, init-handshake and
stream-redirection behaviour.

Modelling conventions:
* JSON values are `JVal`; numeric literals are modelled as integers (no claim
  involves floating point).
* Python exceptions are `PyErr`; a function that can raise returns `Except`
  (or a product with an `Option PyErr` when mutations before the raise must
  be kept).
* Python dicts are insertion-ordered association lists with unique keys;
  `dictGet`, `dictSet`, `dictRemove` mirror `d[k]`, `d[k] = v`, `del d[k]`.
* Handlers (`Handler`) carry the declared parameter list (with optional
  default values, mirroring `inspect.signature`), the docstring, and a body.
  User handler bodies are opaque Lean functions from bound arguments to a
  result; the two built-ins (`_getmanifest`, `_init`) are distinguished
  constructors because they read and mutate the plugin state.
* Writes to stdout are recorded as a list of `OutEvent`s (a `json.dump`, a
  raw `write`, a `flush`) instead of being serialised to bytes.
-/

/-- A JSON value, as produced by `json.loads`.  Numbers are integers: the
claims under study never involve floating-point literals. -/
inductive JVal where
  | null
  | bool (b : Bool)
  | num (n : Int)
  | str (s : String)
  | arr (xs : List JVal)
  | obj (kvs : List (String × JVal))
  deriving Repr

/-- The Python exceptions the embedded code can raise. -/
inductive PyErr where
  | keyError (k : String)
  | valueError (msg : String)
  | typeError (msg : String)
  | jsonDecodeError (msg : String)
  | indexError
  | recursionError
  | handlerError (msg : String)
  deriving Repr, DecidableEq

/-- Python dict lookup `d[k]` restricted to its `Option` core (the dicts in
the source have unique string keys). -/
def dictGet {α : Type} : List (String × α) → String → Option α
  | [], _ => none
  | (k', v) :: d, k => if k' = k then some v else dictGet d k

/-- Python dict assignment `d[k] = v`: replace in place, preserving insertion
order, appending when the key is fresh. -/
def dictSet {α : Type} : List (String × α) → String → α → List (String × α)
  | [], k, v => [(k, v)]
  | (k', w) :: d, k, v => if k' = k then (k, v) :: d else (k', w) :: dictSet d k v

/-- Python dict deletion `del d[k]` (no-op when the key is absent). -/
def dictRemove {α : Type} : List (String × α) → String → List (String × α)
  | [], _ => []
  | (k', v) :: d, k => if k' = k then dictRemove d k else (k', v) :: dictRemove d k

mutual

/-- Python `repr` of a JSON-shaped value (used by `str.format` on non-string
arguments). -/
def pyRepr : JVal → String
  | .null => "None"
  | .bool true => "True"
  | .bool false => "False"
  | .num n => toString n
  | .str s => "'" ++ s ++ "'"
  | .arr xs => "[" ++ pyReprList xs ++ "]"
  | .obj kvs => "\x7b" ++ pyReprObj kvs ++ "\x7d"

def pyReprList : List JVal → String
  | [] => ""
  | [x] => pyRepr x
  | x :: xs => pyRepr x ++ ", " ++ pyReprList xs

def pyReprObj : List (String × JVal) → String
  | [] => ""
  | [(k, v)] => "'" ++ k ++ "': " ++ pyRepr v
  | (k, v) :: kvs => "'" ++ k ++ "': " ++ pyRepr v ++ ", " ++ pyReprObj kvs

end

/-- Python `str` of a JSON-shaped value, as used by `"...".format(x)`. -/
def pyStr : JVal → String
  | .str s => s
  | v => pyRepr v

/-- Abstraction of `traceback.format_exc()`: the text that reaches the host
in a log notification when an exception is caught. -/
def excText (e : PyErr) : String :=
  "Traceback (most recent call last):\n" ++
    match e with
    | .keyError k => "KeyError: '" ++ k ++ "'"
    | .valueError m => "ValueError: " ++ m
    | .typeError m => "TypeError: " ++ m
    | .jsonDecodeError m => "json.decoder.JSONDecodeError: " ++ m
    | .indexError => "IndexError: index out of range"
    | .recursionError => "RecursionError: maximum recursion depth exceeded"
    | .handlerError m => "Exception: " ++ m

/-! ### `json.loads` -/

/-- Skip JSON whitespace. -/
def skipWs : List Char → List Char
  | c :: cs => if c = ' ' ∨ c = '\n' ∨ c = '\t' ∨ c = '\r' then skipWs cs else c :: cs
  | [] => []

/-- Parse the body of a JSON string literal (the opening quote already
consumed), returning the decoded characters and the rest of the input. -/
def parseStrAux : List Char → Except PyErr (List Char × List Char)
  | [] => .error (.jsonDecodeError "Unterminated string")
  | '"' :: cs => .ok ([], cs)
  | '\\' :: c :: cs =>
    let esc : Option Char :=
      if c = '"' then some '"'
      else if c = '\\' then some '\\'
      else if c = '/' then some '/'
      else if c = 'n' then some '\n'
      else if c = 't' then some '\t'
      else if c = 'r' then some '\r'
      else if c = 'b' then some (Char.ofNat 8)
      else if c = 'f' then some (Char.ofNat 12)
      else none
    match esc with
    | some e => (parseStrAux cs).map (fun r => (e :: r.1, r.2))
    | none => .error (.jsonDecodeError "Invalid escape")
  | ['\\'] => .error (.jsonDecodeError "Unterminated string")
  | c :: cs => (parseStrAux cs).map (fun r => (c :: r.1, r.2))

/-- Split a maximal run of leading decimal digits off the input. -/
def parseDigits : List Char → (List Char × List Char)
  | c :: cs =>
    if c.isDigit then
      let (d, r) := parseDigits cs
      (c :: d, r)
    else ([], c :: cs)
  | [] => ([], [])

def digitsToNat (ds : List Char) : Nat :=
  ds.foldl (fun a c => a * 10 + (c.toNat - 48)) 0

/-- Check for a fixed literal continuation (`true`, `false`, `null`). -/
def expectLit (lit : List Char) (cs : List Char) (v : JVal) :
    Except PyErr (JVal × List Char) :=
  if lit.isPrefixOf cs then .ok (v, cs.drop lit.length)
  else .error (.jsonDecodeError "Expecting value")

mutual

/-- Parse one JSON value (fuel-indexed; `jsonLoads` supplies ample fuel). -/
def parseVal : Nat → List Char → Except PyErr (JVal × List Char)
  | 0, _ => .error (.jsonDecodeError "Nesting too deep")
  | n + 1, cs =>
    match skipWs cs with
    | [] => .error (.jsonDecodeError "Expecting value")
    | '"' :: cs1 => (parseStrAux cs1).map (fun r => (.str (String.mk r.1), r.2))
    | '\x7b' :: cs1 =>
      (match skipWs cs1 with
       | '\x7d' :: cs2 => .ok (.obj [], cs2)
       | cs2 => (parseMembers n [] cs2).map (fun r => (.obj r.1, r.2)))
    | '[' :: cs1 =>
      (match skipWs cs1 with
       | ']' :: cs2 => .ok (.arr [], cs2)
       | cs2 => (parseItems n [] cs2).map (fun r => (.arr r.1, r.2)))
    | 't' :: cs1 => expectLit ['r', 'u', 'e'] cs1 (.bool true)
    | 'f' :: cs1 => expectLit ['a', 'l', 's', 'e'] cs1 (.bool false)
    | 'n' :: cs1 => expectLit ['u', 'l', 'l'] cs1 .null
    | '-' :: cs1 =>
      (match parseDigits cs1 with
       | ([], _) => .error (.jsonDecodeError "Expecting value")
       | (ds, rest) => .ok (.num (-(Int.ofNat (digitsToNat ds))), rest))
    | c :: cs1 =>
      if c.isDigit then
        match parseDigits (c :: cs1) with
        | (ds, rest) => .ok (.num (Int.ofNat (digitsToNat ds)), rest)
      else .error (.jsonDecodeError "Expecting value")

/-- Parse the members of a JSON object after the opening brace (duplicate
keys overwrite, as in Python's `json.loads`). -/
def parseMembers : Nat → List (String × JVal) → List Char →
    Except PyErr (List (String × JVal) × List Char)
  | 0, _, _ => .error (.jsonDecodeError "Nesting too deep")
  | n + 1, acc, cs =>
    match skipWs cs with
    | '"' :: cs1 =>
      (match parseStrAux cs1 with
       | .error e => .error e
       | .ok (kcs, cs2) =>
         match skipWs cs2 with
         | ':' :: cs3 =>
           (match parseVal n cs3 with
            | .error e => .error e
            | .ok (v, cs4) =>
              let acc' := dictSet acc (String.mk kcs) v
              match skipWs cs4 with
              | ',' :: cs5 => parseMembers n acc' cs5
              | '\x7d' :: cs5 => .ok (acc', cs5)
              | _ => .error (.jsonDecodeError "Expecting comma"))
         | _ => .error (.jsonDecodeError "Expecting colon"))
    | _ => .error (.jsonDecodeError "Expecting property name")

/-- Parse the items of a JSON array after the opening bracket. -/
def parseItems : Nat → List JVal → List Char →
    Except PyErr (List JVal × List Char)
  | 0, _, _ => .error (.jsonDecodeError "Nesting too deep")
  | n + 1, acc, cs =>
    match parseVal n cs with
    | .error e => .error e
    | .ok (v, cs1) =>
      match skipWs cs1 with
      | ',' :: cs2 => parseItems n (acc ++ [v]) cs2
      | ']' :: cs2 => .ok (acc ++ [v], cs2)
      | _ => .error (.jsonDecodeError "Expecting comma")

end

/-- `json.loads`: decode a complete JSON document, rejecting trailing data. -/
def jsonLoads (s : String) : Except PyErr JVal :=
  match parseVal (2 * s.length + 4) s.data with
  | .error e => .error e
  | .ok (v, rest) =>
    if (skipWs rest).isEmpty then .ok v
    else .error (.jsonDecodeError "Extra data")

/-! ### Python `str.split` on the frame delimiters -/

/-- `s.split('\n\n')` on character lists: non-overlapping, left to right. -/
def splitNN : List Char → List Char → List (List Char)
  | acc, '\n' :: '\n' :: cs => acc.reverse :: splitNN [] cs
  | acc, c :: cs => splitNN (c :: acc) cs
  | acc, [] => [acc.reverse]

/-- `s.split('\n')` on character lists. -/
def splitN : List Char → List Char → List (List Char)
  | acc, '\n' :: cs => acc.reverse :: splitN [] cs
  | acc, c :: cs => splitN (c :: acc) cs
  | acc, [] => [acc.reverse]

/-- `s.split('\n\n')` — the frame delimiter split used by `Plugin.run`. -/
def pySplitNN (s : String) : List String :=
  (splitNN [] s.data).map String.mk

/-- `s.split('\n')` — the line split used by `PluginStream.flush`. -/
def pySplitN (s : String) : List String :=
  (splitN [] s.data).map String.mk

/-! ### The plugin data model -/

/-- A value that can be bound to a handler parameter: either a JSON value
from the wire, or one of the two injected back-references (`plugin`,
`request`). -/
inductive PVal where
  | json (v : JVal)
  | pluginRef
  | requestRef (r : JVal)
  deriving Repr

/-- The body of a registered handler.  User handlers are opaque functions of
their bound arguments; the two built-ins are distinguished because they read
and mutate the plugin state. -/
inductive HandlerBody where
  | pure (f : List (String × PVal) → Except String JVal)
  | getmanifest
  | initBuiltin

/-- A registered method: declared parameter names in order with optional
default values (as exposed by `inspect.signature`), the docstring (as
returned by `inspect.getdoc`), and the body. -/
structure Handler where
  params : List (String × Option PVal)
  doc : Option String
  body : HandlerBody

/-- One write-side effect on the plugin's stdout: a `json.dump`, a raw
`write`, or a `flush`. -/
inductive OutEvent where
  | dump (v : JVal)
  | write (s : String)
  | flush
  deriving Repr

/-- The state of a `Plugin` object: the method registry dict, the stashed
`init` handler (`self.init`), and the ordered log of writes to stdout. -/
structure Plugin where
  methods : List (String × Handler)
  init : Option Handler
  out : List OutEvent

/-- `json.dump(result, fp=self.stdout); self.stdout.write('\n\n');
self.stdout.flush()` — the emission tail shared by `notify` and
`_multi_dispatch`. -/
def emit (p : Plugin) (result : JVal) : Plugin :=
  { p with out := p.out ++ [.dump result, .write "\n\n", .flush] }

/-- `Plugin.notify`. -/
def Plugin.notify (p : Plugin) (method : String) (params : JVal) : Plugin :=
  emit p (.obj [("jsonrpc", .str "2.0"), ("method", .str method), ("params", params)])

/-- `Plugin.log` (the default level is `'info'`; callers pass it
explicitly). -/
def Plugin.log (p : Plugin) (message : String) (level : String) : Plugin :=
  p.notify "log" (.obj [("level", .str level), ("message", .str message)])

/-- `Plugin.add_method`: raises `ValueError` when the name is already bound,
otherwise inserts the handler. -/
def addMethod (p : Plugin) (name : String) (func : Handler) : Except PyErr Plugin :=
  if (dictGet p.methods name).isSome then
    .error (.valueError ("Name " ++ name ++ " is already bound to a method."))
  else .ok { p with methods := p.methods ++ [(name, func)] }

/-- `request[k]` on an arbitrary decoded JSON value: `KeyError` on a missing
key, `TypeError` on a non-object. -/
def pyGetItem (v : JVal) (k : String) : Except PyErr JVal :=
  match v with
  | .obj kvs =>
    match dictGet kvs k with
    | some x => .ok x
    | none => .error (.keyError k)
  | .str _ => .error (.typeError "string indices must be integers")
  | .arr _ => .error (.typeError "list indices must be integers, not str")
  | _ => .error (.typeError "object is not subscriptable")

/-- `args = params.copy() if isinstance(params, list) else []`. -/
def posArgs (params : JVal) : List PVal :=
  match params with
  | .arr xs => xs.map PVal.json
  | _ => []

/-- `kwargs = params.copy() if isinstance(params, dict) else ⦃⦄`. -/
def kwArgs (params : JVal) : List (String × PVal) :=
  match params with
  | .obj kvs => kvs.map (fun kv => (kv.1, PVal.json kv.2))
  | _ => []

/-- Lines 86–92 of `_dispatch`: `kwargs['plugin'] = self` when the handler
declares `plugin`, then `kwargs['request'] = request` when it declares
`request`. -/
def injectReserved (names : List String) (request : JVal)
    (kwargs : List (String × PVal)) : List (String × PVal) :=
  let kwargs1 := if names.contains "plugin" then dictSet kwargs "plugin" PVal.pluginRef else kwargs
  if names.contains "request" then dictSet kwargs1 "request" (PVal.requestRef request) else kwargs1

/-- `sig.bind(*args, **kwargs)` followed by `ba.apply_defaults()` for a
signature of plain positional-or-keyword parameters: positional arguments
bind in declaration order, keyword arguments by name, defaults fill the
rest; too many positionals, double bindings, unknown keywords and missing
required parameters raise `TypeError`. -/
def bindArgs : List (String × Option PVal) → List PVal → List (String × PVal) →
    Except PyErr (List (String × PVal))
  | [], [] , kwargs =>
    if kwargs.isEmpty then .ok []
    else .error (.typeError "got an unexpected keyword argument")
  | [], _ :: _, _ => .error (.typeError "too many positional arguments")
  | (n, _) :: ps, a :: args, kwargs =>
    if (dictGet kwargs n).isSome then
      .error (.typeError ("multiple values for argument '" ++ n ++ "'"))
    else
      match bindArgs ps args kwargs with
      | .error e => .error e
      | .ok rest => .ok ((n, a) :: rest)
  | (n, d) :: ps, [], kwargs =>
    match dictGet kwargs n with
    | some v =>
      (match bindArgs ps [] (dictRemove kwargs n) with
       | .error e => .error e
       | .ok rest => .ok ((n, v) :: rest))
    | none =>
      match d with
      | some dv =>
        (match bindArgs ps [] kwargs with
         | .error e => .error e
         | .ok rest => .ok ((n, dv) :: rest))
      | none => .error (.typeError ("missing a required argument: '" ++ n ++ "'"))

/-- One iteration of the `_getmanifest` loop over `self.methods.items()`:
skip the two built-ins, warn (via a log notification) about a missing or
empty docstring, and append the name/description record. -/
def manifestStep (acc : List JVal × Plugin) (entry : String × Handler) :
    List JVal × Plugin :=
  if entry.1 = "getmanifest" ∨ entry.1 = "init" then acc
  else
    let dp : String × Plugin :=
      match entry.2.doc with
      | some d =>
        if d = "" then
          ("Undocumented RPC method from a plugin.",
           acc.2.log ("RPC method '" ++ entry.1 ++ "' does not have a docstring.") "info")
        else (d, acc.2)
      | none =>
        ("Undocumented RPC method from a plugin.",
         acc.2.log ("RPC method '" ++ entry.1 ++ "' does not have a docstring.") "info")
    (acc.1 ++ [JVal.obj [("name", .str entry.1), ("description", .str dp.1)]], dp.2)

/-- `Plugin._getmanifest`: walk the registry in insertion order and report
`options` (always empty) and the `rpcmethods` records. -/
def getmanifestImpl (p : Plugin) : Except PyErr JVal × Plugin :=
  let folded := p.methods.foldl manifestStep ([], p)
  (.ok (.obj [("options", .arr []), ("rpcmethods", .arr folded.1)]), folded.2)

/-- The handler registered for `getmanifest` in `Plugin.__init__`
(`_getmanifest` takes no parameters beyond `self` and has no docstring). -/
def getmanifestHandler : Handler :=
  { params := [], doc := none, body := .getmanifest }

/-- The built-in `_init` handler as seen through `inspect.signature`:
parameters `options`, `configuration`, `request`, no defaults. -/
def initHandler : Handler :=
  { params := [("options", none), ("configuration", none), ("request", none)],
    doc := none, body := .initBuiltin }

/-- `Plugin._dispatch`, fuel-indexed because `_init` re-dispatches the
request it intercepted.  Returns the result (or the escaping exception)
together with the possibly mutated plugin state. -/
def dispatchFuel : Nat → Plugin → JVal → Except PyErr JVal × Plugin
  | 0, p, _ => (.error .recursionError, p)
  | fuel + 1, p, request =>
    match pyGetItem request "method" with
    | .error e => (.error e, p)
    | .ok nameV =>
      match pyGetItem request "params" with
      | .error e => (.error e, p)
      | .ok params =>
        let entry : Option Handler :=
          match nameV with
          | .str s => dictGet p.methods s
          | _ => none
        match entry with
        | none => (.error (.valueError ("No method " ++ pyStr nameV ++ " found.")), p)
        | some func =>
          let kwargs := injectReserved (func.params.map Prod.fst) request (kwArgs params)
          match bindArgs func.params (posArgs params) kwargs with
          | .error e => (.error e, p)
          | .ok bound =>
            match func.body with
            | .pure f =>
              (match f bound with
               | .ok v => (.ok v, p)
               | .error m => (.error (.handlerError m), p))
            | .getmanifest => getmanifestImpl p
            | .initBuiltin =>
              match p.init with
              | some g =>
                dispatchFuel fuel
                  { p with methods := dictSet p.methods "init" g, init := none } request
              | none => (.ok .null, p)

/-- The success `Response` dict built in `_multi_dispatch`. -/
def successResponse (v idv : JVal) : JVal :=
  .obj [("jsonrpc", .str "2.0"), ("result", v), ("id", idv)]

/-- The error `Response` dict built in the `except` branch of
`_multi_dispatch`. -/
def errorResponse (mv idv : JVal) : JVal :=
  .obj [("jsonrpc", .str "2.0"),
        ("error", .str ("Error while processing " ++ pyStr mv)), ("id", idv)]

/-- The `try` block of `_multi_dispatch`: the dispatch result (evaluated
first) and then `request['id']`, assembled into the success response. -/
def tryBuild (dres : Except PyErr JVal) (request : JVal) : Except PyErr JVal :=
  match dres with
  | .error e => .error e
  | .ok v =>
    match pyGetItem request "id" with
    | .error e => .error e
    | .ok idv => .ok (successResponse v idv)

/-- One iteration of the `_multi_dispatch` loop body on a complete payload:
`json.loads` (outside the `try`, so a decode failure escapes), then the
`try`/`except`, then the emission of the response.  An `.error` return is an
exception escaping the loop. -/
def multiStep (fuel : Nat) (p : Plugin) (payload : String) : Except PyErr Plugin :=
  match jsonLoads payload with
  | .error e => .error e
  | .ok request =>
    match dispatchFuel fuel p request with
    | (dres, p1) =>
      match tryBuild dres request with
      | .ok result => .ok (emit p1 result)
      | .error e =>
        match pyGetItem request "method" with
        | .error e2 => .error e2
        | .ok mv =>
          match pyGetItem request "id" with
          | .error e2 => .error e2
          | .ok idv =>
            .ok (emit ((Plugin.log p1 (excText e) "info")) (errorResponse mv idv))

/-- `Plugin._multi_dispatch`: process every message but the last in arrival
order, and return the last (possibly empty) segment as the new partial
buffer.  `msgs[-1]` on an empty list raises `IndexError`. -/
def multiDispatch (fuel : Nat) : Plugin → List String → Except PyErr (String × Plugin)
  | _, [] => .error .indexError
  | p, [last] => .ok (last, p)
  | p, payload :: next :: rest =>
    match multiStep fuel p payload with
    | .error e => .error e
    | .ok p1 => multiDispatch fuel p1 (next :: rest)

/-- The stash step at the top of `Plugin.run`: when a user `init` handler is
registered, move it to `self.init` and install the built-in in its place. -/
def runStash (p : Plugin) : Plugin :=
  match dictGet p.methods "init" with
  | some h => { p with init := some h, methods := dictSet p.methods "init" initHandler }
  | none => p

/-- The read loop of `Plugin.run`: accumulate stdin chunks into the partial
buffer, split on the frame delimiter, and hand complete messages to
`_multi_dispatch`.  Returns the final partial buffer and plugin state when
stdin is exhausted. -/
def runLoop (fuel : Nat) : Plugin → String → List String → Except PyErr (String × Plugin)
  | p, buf, [] => .ok (buf, p)
  | p, buf, l :: ls =>
    let buf1 := buf ++ l
    let msgs := pySplitNN buf1
    if msgs.length < 2 then runLoop fuel p buf1 ls
    else
      match multiDispatch fuel p msgs with
      | .error e => .error e
      | .ok (newBuf, p1) => runLoop fuel p1 newBuf ls

/-- `Plugin.run`: stash the `init` handler, then run the read loop with an
empty partial buffer. -/
def run (fuel : Nat) (p : Plugin) (input : List String) : Except PyErr (String × Plugin) :=
  runLoop fuel (runStash p) "" input

/-- A plugin as built by `Plugin.__init__` (no `LIGHTNINGD_PLUGIN`
environment, so no monkey patching): only `getmanifest` registered,
`self.init = None`, nothing written yet. -/
def freshPlugin : Plugin :=
  { methods := [("getmanifest", getmanifestHandler)], init := none, out := [] }

/-! ### `PluginStream` -/

/-- `PluginStream`: a sink owning a back-reference to the plugin, a log
level, and the accumulated unflushed buffer. -/
structure PluginStream where
  plugin : Plugin
  level : String
  buff : String

/-- `PluginStream.flush`: split the buffer on newlines, emit every complete
line as a log notification, and keep the trailing partial line. -/
def PluginStream.flush (s : PluginStream) : PluginStream :=
  let lines := pySplitN s.buff
  if lines.length < 2 then s
  else
    { s with
      plugin := lines.dropLast.foldl (fun pl l => Plugin.log pl l s.level) s.plugin,
      buff := lines.getLastD "" }

/-- `PluginStream.write`: append the payload to the buffer, then flush when
the payload's final character is a newline (`payload[-1]` raises
`IndexError` on an empty payload, after the append). -/
def PluginStream.write (s : PluginStream) (payload : String) :
    PluginStream × Option PyErr :=
  let s1 := { s with buff := s.buff ++ payload }
  match payload.data.getLast? with
  | none => (s1, some .indexError)
  | some c => if c = '\n' then (s1.flush, none) else (s1, none)

/-! ### Dictionary lemmas -/

theorem dictGet_dictSet_self {α : Type} (d : List (String × α)) (k : String) (v : α) :
    dictGet (dictSet d k v) k = some v := by
  induction d with
  | nil => simp [dictGet, dictSet]
  | cons hd tl ih =>
    obtain ⟨k', w⟩ := hd
    by_cases h : k' = k
    · simp [dictSet, h, dictGet]
    · simp [dictSet, h, dictGet, ih]

theorem dictGet_dictSet_ne {α : Type} (d : List (String × α)) {k k' : String} (v : α)
    (h : k' ≠ k) : dictGet (dictSet d k v) k' = dictGet d k' := by
  induction d with
  | nil => simp [dictGet, dictSet, Ne.symm h]
  | cons hd tl ih =>
    obtain ⟨k0, w⟩ := hd
    by_cases h0 : k0 = k
    · subst h0
      simp [dictSet, dictGet, Ne.symm h]
    · by_cases h1 : k0 = k'
      · simp [dictSet, h0, dictGet, h1, h]
      · simp [dictSet, h0, dictGet, h1, ih]

theorem dictSet_dictSet {α : Type} (d : List (String × α)) (k : String) (v w : α) :
    dictSet (dictSet d k v) k w = dictSet d k w := by
  induction d with
  | nil => simp [dictSet]
  | cons hd tl ih =>
    obtain ⟨k0, u⟩ := hd
    by_cases h0 : k0 = k
    · simp [dictSet, h0]
    · simp [dictSet, h0, ih]

theorem dictSet_eq_of_get {α : Type} (d : List (String × α)) (k : String) (v : α)
    (h : dictGet d k = some v) : dictSet d k v = d := by
  induction d with
  | nil => simp [dictGet] at h
  | cons hd tl ih =>
    obtain ⟨k0, u⟩ := hd
    by_cases h0 : k0 = k
    · subst h0
      simp [dictGet] at h
      simp [dictSet, h]
    · simp [dictGet, h0] at h
      simp [dictSet, h0, ih h]

/-! ### Dispatch helper lemmas -/

/-- Successful dispatch of a request bound for a user (pure) handler:
the handler's return value comes back untouched and the plugin state is
untouched. -/
theorem dispatch_pure_ok (n : Nat) (p : Plugin) (request : JVal) (name : String)
    (h : Handler) (f : List (String × PVal) → Except String JVal) (pv : JVal)
    (bound : List (String × PVal)) (v : JVal)
    (hm : pyGetItem request "method" = .ok (.str name))
    (hp : pyGetItem request "params" = .ok pv)
    (hl : dictGet p.methods name = some h)
    (hb : h.body = .pure f)
    (hbind : bindArgs h.params (posArgs pv)
      (injectReserved (h.params.map Prod.fst) request (kwArgs pv)) = .ok bound)
    (hf : f bound = .ok v) :
    dispatchFuel (n + 1) p request = (.ok v, p) := by
  simp only [dispatchFuel, hm, hp, hl, hbind, hb, hf]

/-- Dispatch of a request whose method name is not registered raises the
`ValueError` from `_dispatch` and leaves the plugin untouched. -/
theorem dispatch_unknown (n : Nat) (p : Plugin) (request : JVal) (name : String)
    (pv : JVal)
    (hm : pyGetItem request "method" = .ok (.str name))
    (hp : pyGetItem request "params" = .ok pv)
    (hl : dictGet p.methods name = none) :
    dispatchFuel (n + 1) p request =
      (.error (.valueError ("No method " ++ name ++ " found.")), p) := by
  simp only [dispatchFuel, hm, hp, hl, pyStr]

/-- A complete message that decodes, dispatches successfully and carries an
`id` makes the loop body emit the success response. -/
theorem multiStep_success (fuel : Nat) (p p1 : Plugin) (payload : String)
    (request v idv : JVal)
    (hj : jsonLoads payload = .ok request)
    (hd : dispatchFuel fuel p request = (.ok v, p1))
    (hid : pyGetItem request "id" = .ok idv) :
    multiStep fuel p payload = .ok (emit p1 (successResponse v idv)) := by
  simp only [multiStep, hj, hd, tryBuild, hid]

/-- A complete message that decodes and carries `method` and `id` but whose
dispatch raises makes the loop body log the traceback and emit the error
response. -/
theorem multiStep_failure (fuel : Nat) (p p1 : Plugin) (payload : String)
    (request mv idv : JVal) (e : PyErr)
    (hj : jsonLoads payload = .ok request)
    (hd : dispatchFuel fuel p request = (.error e, p1))
    (hm : pyGetItem request "method" = .ok mv)
    (hid : pyGetItem request "id" = .ok idv) :
    multiStep fuel p payload =
      .ok (emit (Plugin.log p1 (excText e) "info") (errorResponse mv idv)) := by
  simp only [multiStep, hj, hd, tryBuild, hm, hid]

/-- When a loop body iteration does not raise, `_multi_dispatch` continues
with the remaining messages. -/
theorem multiDispatch_cons (fuel : Nat) (p p1 : Plugin) (payload next : String)
    (rest : List String) (h : multiStep fuel p payload = .ok p1) :
    multiDispatch fuel p (payload :: next :: rest) =
      multiDispatch fuel p1 (next :: rest) := by
  simp only [multiDispatch, h]

/-! ### Claim C7 — duplicate registration -/

/-- Claim C7: for every registry state and every name already bound, a
second registration under that name raises `ValueError` and the registry is
unchanged: the first handler remains bound. -/
theorem add_method_duplicate_fails (p : Plugin) (name : String) (h g : Handler)
    (hb : dictGet p.methods name = some h) :
    addMethod p name g =
      .error (.valueError ("Name " ++ name ++ " is already bound to a method.")) ∧
    dictGet p.methods name = some h := by
  refine ⟨?_, hb⟩
  simp [addMethod, hb]

/-- Witness for C7: re-registering `getmanifest` on a fresh plugin fails and
the built-in handler stays bound. -/
theorem add_method_duplicate_fails_witness :
    addMethod freshPlugin "getmanifest" initHandler =
      .error (.valueError "Name getmanifest is already bound to a method.") ∧
    dictGet freshPlugin.methods "getmanifest" = some getmanifestHandler :=
  add_method_duplicate_fails freshPlugin "getmanifest" getmanifestHandler initHandler rfl

/-! ### Claim C5 — reserved parameter injection -/

/-- Claim C5 (amended): the reserved names are injected exactly when the
handler declares them, and the injection overwrites any caller-supplied
mapping entry of the same name rather than leaving it intact. -/
theorem reserved_params_injected_when_declared (names : List String)
    (request : JVal) (kwargs : List (String × PVal)) :
    dictGet (injectReserved names request kwargs) "plugin" =
      (if names.contains "plugin" then some PVal.pluginRef
       else dictGet kwargs "plugin") ∧
    dictGet (injectReserved names request kwargs) "request" =
      (if names.contains "request" then some (PVal.requestRef request)
       else dictGet kwargs "request") := by
  have hne : ("plugin" : String) ≠ "request" := by decide
  by_cases hp : "plugin" ∈ names <;> by_cases hr : "request" ∈ names <;>
    simp [injectReserved, hp, hr, dictGet_dictSet_self, dictGet_dictSet_ne _ _ hne,
          dictGet_dictSet_ne _ _ hne.symm]

/-- Counterexample for C5 as stated: a handler declaring `plugin` whose body
reports what it was bound to receives the injected back-reference even
though the caller supplied `"mine"` for `plugin`; the caller's value is not
left intact. -/
theorem caller_supplied_plugin_overwritten :
    (dispatchFuel 3
      { methods := [("probe",
          { params := [("plugin", none)], doc := some "Report the plugin arg.",
            body := .pure (fun bound =>
              match dictGet bound "plugin" with
              | some .pluginRef => .ok (.str "injected")
              | some (.json v) => .ok v
              | _ => .ok .null) })],
        init := none, out := [] }
      (JVal.obj [("method", .str "probe"),
                 ("params", .obj [("plugin", .str "mine")]), ("id", .num 1)])).1 =
      .ok (.str "injected") ∧ JVal.str "injected" ≠ JVal.str "mine" := by
  refine ⟨rfl, ?_⟩
  simp

/-! ### Claim C9 — manifest contents -/

/-- The description `_getmanifest` reports for a handler: its docstring, or
the placeholder when the docstring is absent or empty. -/
def effectiveDoc (h : Handler) : String :=
  match h.doc with
  | some d => if d = "" then "Undocumented RPC method from a plugin." else d
  | none => "Undocumented RPC method from a plugin."

/-- The `rpcmethods` record for one registry entry. -/
def manifestEntry (e : String × Handler) : JVal :=
  .obj [("name", .str e.1), ("description", .str (effectiveDoc e.2))]

/-- The `rpcmethods` list the spec promises: every registered method in
order, except the built-in `getmanifest` and `init` entries. -/
def manifestEntries : List (String × Handler) → List JVal
  | [] => []
  | e :: ms =>
    if e.1 = "getmanifest" ∨ e.1 = "init" then manifestEntries ms
    else manifestEntry e :: manifestEntries ms

theorem manifestStep_skip (acc : List JVal × Plugin) (e : String × Handler)
    (hb : e.1 = "getmanifest" ∨ e.1 = "init") : manifestStep acc e = acc := by
  simp [manifestStep, hb]

theorem manifestStep_keep_fst (acc : List JVal × Plugin) (e : String × Handler)
    (hb : ¬(e.1 = "getmanifest" ∨ e.1 = "init")) :
    (manifestStep acc e).1 = acc.1 ++ [manifestEntry e] := by
  obtain ⟨nm, hnd⟩ := e
  simp only [manifestStep, hb, if_neg, not_false_eq_true]
  cases hd : hnd.doc with
  | none => simp [manifestEntry, effectiveDoc, hd]
  | some d =>
    by_cases hde : d = "" <;> simp [manifestEntry, effectiveDoc, hd, hde]

theorem manifest_foldl_fst (ms : List (String × Handler)) :
    ∀ (acc : List JVal) (pl : Plugin),
      (ms.foldl manifestStep (acc, pl)).1 = acc ++ manifestEntries ms := by
  induction ms with
  | nil => intro acc pl; simp [manifestEntries]
  | cons e ms ih =>
    intro acc pl
    rw [List.foldl_cons]
    by_cases hb : e.1 = "getmanifest" ∨ e.1 = "init"
    · rw [manifestStep_skip _ _ hb, ih]
      simp [manifestEntries, hb]
    · calc (List.foldl manifestStep (manifestStep (acc, pl) e) ms).1
          = (List.foldl manifestStep
              ((manifestStep (acc, pl) e).1, (manifestStep (acc, pl) e).2) ms).1 := by
            rw [Prod.mk.eta]
        _ = (manifestStep (acc, pl) e).1 ++ manifestEntries ms := ih _ _
        _ = acc ++ [manifestEntry e] ++ manifestEntries ms := by
            rw [manifestStep_keep_fst _ _ hb]
        _ = acc ++ manifestEntries (e :: ms) := by
            simp [manifestEntries, hb, List.append_assoc]

/-- Claim C9: for every registry state, `getmanifest` reports empty
`options` and lists every registered method with its description under
`rpcmethods`, except that `getmanifest` and `init` never appear. -/
theorem getmanifest_excludes_builtins (p : Plugin) :
    (getmanifestImpl p).1 =
      .ok (.obj [("options", .arr []),
                 ("rpcmethods", .arr (manifestEntries p.methods))]) := by
  simp only [getmanifestImpl]
  rw [manifest_foldl_fst p.methods [] p]
  simp

/-! ### Claim C3 — successful dispatch -/

/-- Claim C3: for a request naming a registered (user) method whose params,
after defaults and reserved-name injection, satisfy the handler's declared
parameters, `_dispatch` returns exactly the handler's return value, and the
emitted success Response carries that value unmodified as `result` together
with the request's id. -/
theorem dispatch_success_response (fuel : Nat) (p : Plugin)
    (payload tail : String) (request pv idv : JVal) (name : String)
    (h : Handler) (f : List (String × PVal) → Except String JVal)
    (bound : List (String × PVal)) (v : JVal)
    (hj : jsonLoads payload = .ok request)
    (hm : pyGetItem request "method" = .ok (.str name))
    (hp : pyGetItem request "params" = .ok pv)
    (hl : dictGet p.methods name = some h)
    (hb : h.body = .pure f)
    (hbind : bindArgs h.params (posArgs pv)
      (injectReserved (h.params.map Prod.fst) request (kwArgs pv)) = .ok bound)
    (hf : f bound = .ok v)
    (hid : pyGetItem request "id" = .ok idv) :
    dispatchFuel (fuel + 1) p request = (.ok v, p) ∧
    multiDispatch (fuel + 1) p [payload, tail] =
      .ok (tail, emit p (successResponse v idv)) := by
  have hdisp := dispatch_pure_ok fuel p request name h f pv bound v hm hp hl hb hbind hf
  refine ⟨hdisp, ?_⟩
  rw [multiDispatch_cons _ _ _ _ _ _ (multiStep_success _ _ _ _ _ _ _ hj hdisp hid)]
  rfl

/-- The body of the `echo` handler used in witnesses: return the `x`
argument. -/
def echoBody (bound : List (String × PVal)) : Except String JVal :=
  match dictGet bound "x" with
  | some (.json v) => .ok v
  | _ => .error "missing x"

/-- A user handler with one declared parameter `x`. -/
def echoHandler : Handler :=
  { params := [("x", none)], doc := some "Return x.", body := .pure echoBody }

/-- A plugin with the built-in `getmanifest` and a registered `echo`
method. -/
def echoPlugin : Plugin :=
  { methods := [("getmanifest", getmanifestHandler), ("echo", echoHandler)],
    init := none, out := [] }

def echoPayload : String := "\x7b\"method\":\"echo\",\"params\":\x7b\"x\":42\x7d,\"id\":7\x7d"

/-- Witness for C3: calling `echo` with `params` `\x7b"x":42\x7d` and id 7
returns 42 and emits the success response with `result` 42 and id 7. -/
theorem dispatch_success_response_witness :
    dispatchFuel 3 echoPlugin
        (.obj [("method", .str "echo"), ("params", .obj [("x", .num 42)]),
               ("id", .num 7)]) = (.ok (.num 42), echoPlugin) ∧
    multiDispatch 3 echoPlugin [echoPayload, ""] =
      .ok ("", emit echoPlugin (successResponse (.num 42) (.num 7))) :=
  dispatch_success_response 2 echoPlugin echoPayload ""
    (.obj [("method", .str "echo"), ("params", .obj [("x", .num 42)]), ("id", .num 7)])
    (.obj [("x", .num 42)]) (.num 7) "echo" echoHandler echoBody
    [("x", PVal.json (.num 42))] (.num 42) rfl rfl rfl rfl rfl rfl rfl rfl

/-! ### Claim C8 — unknown method -/

/-- Claim C8: dispatching a request whose method name is not registered
yields an error Response carrying that request's id (after the traceback is
logged), and the loop carries on rather than crashing. -/
theorem unknown_method_error_response (fuel : Nat) (p : Plugin)
    (payload tail : String) (request pv idv : JVal) (name : String)
    (hj : jsonLoads payload = .ok request)
    (hm : pyGetItem request "method" = .ok (.str name))
    (hp : pyGetItem request "params" = .ok pv)
    (hl : dictGet p.methods name = none)
    (hid : pyGetItem request "id" = .ok idv) :
    multiDispatch (fuel + 1) p [payload, tail] =
      .ok (tail,
        emit (Plugin.log p
          (excText (.valueError ("No method " ++ name ++ " found."))) "info")
          (errorResponse (.str name) idv)) := by
  have hdisp := dispatch_unknown fuel p request name pv hm hp hl
  rw [multiDispatch_cons _ _ _ _ _ _ (multiStep_failure _ _ _ _ _ _ _ _ hj hdisp hm hid)]
  rfl

def nopePayload : String := "\x7b\"method\":\"nope\",\"params\":\x7b\x7d,\"id\":1\x7d"

/-- Witness for C8: `\x7b"method":"nope","params":\x7b\x7d,"id":1\x7d`
against a fresh plugin yields the error Response with id 1. -/
theorem unknown_method_error_response_witness :
    multiDispatch 3 freshPlugin [nopePayload, ""] =
      .ok ("",
        emit (Plugin.log freshPlugin
          (excText (.valueError "No method nope found.")) "info")
          (errorResponse (.str "nope") (.num 1))) :=
  unknown_method_error_response 2 freshPlugin nopePayload ""
    (.obj [("method", .str "nope"), ("params", .obj []), ("id", .num 1)])
    (.obj []) (.num 1) "nope" rfl rfl rfl rfl rfl

/-! ### Claim C2 — per-message error isolation -/

/-- Claim C2 (amended): for a complete framed message that decodes to a
value carrying `method` and `id`, a dispatch failure is isolated: the
traceback reaches the host as a log notification, an error Response carrying
the message's id is emitted, and the loop continues with the next message
unaffected.  (A JSON-decoding failure, by contrast, escapes the loop: see
the counterexample.) -/
theorem dispatch_failure_isolated (fuel : Nat) (p p1 : Plugin)
    (payload next : String) (rest : List String) (request mv idv : JVal)
    (e : PyErr)
    (hj : jsonLoads payload = .ok request)
    (hd : dispatchFuel fuel p request = (.error e, p1))
    (hm : pyGetItem request "method" = .ok mv)
    (hid : pyGetItem request "id" = .ok idv) :
    multiDispatch fuel p (payload :: next :: rest) =
      multiDispatch fuel
        (emit (Plugin.log p1 (excText e) "info") (errorResponse mv idv))
        (next :: rest) :=
  multiDispatch_cons _ _ _ _ _ _ (multiStep_failure _ _ _ _ _ _ _ _ hj hd hm hid)

/-- Witness for C2: a failing `boom` call is answered with an error Response
and the loop moves on to the next message. -/
theorem dispatch_failure_isolated_witness :
    multiDispatch 3 freshPlugin
        ["\x7b\"method\":\"boom\",\"params\":\x7b\x7d,\"id\":9\x7d", "X", ""] =
      multiDispatch 3
        (emit (Plugin.log freshPlugin
          (excText (.valueError "No method boom found.")) "info")
          (errorResponse (.str "boom") (.num 9))) ["X", ""] :=
  dispatch_failure_isolated 3 freshPlugin freshPlugin
    "\x7b\"method\":\"boom\",\"params\":\x7b\x7d,\"id\":9\x7d" "X" [""]
    (.obj [("method", .str "boom"), ("params", .obj []), ("id", .num 9)])
    (.str "boom") (.num 9) (.valueError "No method boom found.")
    rfl rfl rfl rfl

/-- Counterexample for C2 as stated: a complete framed message that is not
valid JSON does not produce an error Response — `json.loads` sits outside
the `try`, so the decode failure escapes `_multi_dispatch` and terminates
the read loop. -/
theorem decode_failure_escapes_loop :
    multiDispatch 3 freshPlugin ["nope", ""] =
      .error (.jsonDecodeError "Expecting value") := rfl

/-! ### Claim C10 — messages without an id -/

/-- Claim C10: a decoded message lacking an `id` key always blows up the
loop: both the success path and the error path of `_multi_dispatch` read
`request['id']`, so a `KeyError` (on `id`, or on `method` when that is also
missing) escapes the per-message handling — id-less JSON-RPC notifications
are unsupported. -/
theorem missing_id_keyerror_escapes (fuel : Nat) (p : Plugin)
    (payload next : String) (rest : List String) (kvs : List (String × JVal))
    (hj : jsonLoads payload = .ok (.obj kvs))
    (hid : dictGet kvs "id" = none) :
    ∃ k, multiDispatch fuel p (payload :: next :: rest) =
      .error (.keyError k) := by
  have hidG : pyGetItem (.obj kvs) "id" = .error (.keyError "id") := by
    simp [pyGetItem, hid]
  rcases hd : dispatchFuel fuel p (.obj kvs) with ⟨dres, p1⟩
  cases hmv : dictGet kvs "method" with
  | none =>
    refine ⟨"method", ?_⟩
    have hmG : pyGetItem (.obj kvs) "method" = .error (.keyError "method") := by
      simp [pyGetItem, hmv]
    cases dres with
    | ok v => simp only [multiDispatch, multiStep, hj, hd, tryBuild, hidG, hmG]
    | error e => simp only [multiDispatch, multiStep, hj, hd, tryBuild, hmG]
  | some mv =>
    refine ⟨"id", ?_⟩
    have hmG : pyGetItem (.obj kvs) "method" = .ok mv := by
      simp [pyGetItem, hmv]
    cases dres with
    | ok v => simp only [multiDispatch, multiStep, hj, hd, tryBuild, hidG, hmG]
    | error e => simp only [multiDispatch, multiStep, hj, hd, tryBuild, hmG, hidG]

def noIdPayload : String := "\x7b\"method\":\"x\",\"params\":\x7b\x7d\x7d"

/-- Witness for C10: the id-less message
`\x7b"method":"x","params":\x7b\x7d\x7d` makes the loop raise a
`KeyError`. -/
theorem missing_id_keyerror_escapes_witness :
    jsonLoads noIdPayload =
      .ok (.obj [("method", .str "x"), ("params", .obj [])]) ∧
    dictGet [("method", JVal.str "x"), ("params", JVal.obj [])] "id" = none ∧
    ∃ k, multiDispatch 3 freshPlugin [noIdPayload, ""] = .error (.keyError k) :=
  ⟨rfl, rfl,
   missing_id_keyerror_escapes 3 freshPlugin noIdPayload "" []
     [("method", .str "x"), ("params", .obj [])] rfl rfl⟩

/-! ### Claim C1 — framing -/

/-- Claim C1 (amended): whenever the accumulated buffer splits on the frame
delimiter into two or more segments and `_multi_dispatch` (which processes
every segment except the last, in arrival order) does not raise, the read
loop retains the last segment — possibly empty — as the new partial buffer
for the remaining input. -/
theorem read_loop_retains_last_segment (fuel : Nat) (p p1 : Plugin)
    (buf0 l lastSeg : String) (ls : List String)
    (hlen : 2 ≤ (pySplitNN (buf0 ++ l)).length)
    (hmd : multiDispatch fuel p (pySplitNN (buf0 ++ l)) = .ok (lastSeg, p1)) :
    runLoop fuel p buf0 (l :: ls) = runLoop fuel p1 lastSeg ls := by
  have hn : ¬ (pySplitNN (buf0 ++ l)).length < 2 := by omega
  simp only [runLoop, hn, if_false, hmd]

/-- A well-formed two-messages-plus-remainder input (the shape of the
spec's framing example, with messages the dispatcher accepts). -/
def framedInput : String :=
  "\x7b\"method\":\"x\",\"params\":\x7b\x7d,\"id\":1\x7d\n\n\x7b\"method\":\"y\",\"params\":\x7b\x7d,\"id\":2\x7d\n\nPARTIAL"

/-- The plugin state after `_multi_dispatch` has processed the two complete
messages of `framedInput`. -/
def framedResult : Plugin :=
  match multiDispatch 3 freshPlugin (pySplitNN framedInput) with
  | .ok r => r.2
  | .error _e => freshPlugin

/-- Witness for C1: on `framedInput` the loop answers the two messages in
arrival order (ids 1 then 2) and retains `"PARTIAL"` as the new buffer. -/
theorem read_loop_retains_last_segment_witness :
    2 ≤ (pySplitNN ("" ++ framedInput)).length ∧
    multiDispatch 3 freshPlugin (pySplitNN ("" ++ framedInput)) =
      .ok ("PARTIAL", framedResult) ∧
    runLoop 3 freshPlugin "" [framedInput] = runLoop 3 framedResult "PARTIAL" [] ∧
    framedResult.out =
      [.dump (.obj [("jsonrpc", .str "2.0"), ("method", .str "log"),
         ("params", .obj [("level", .str "info"),
           ("message", .str "Traceback (most recent call last):\nValueError: No method x found.")])]),
       .write "\n\n", .flush,
       .dump (errorResponse (.str "x") (.num 1)), .write "\n\n", .flush,
       .dump (.obj [("jsonrpc", .str "2.0"), ("method", .str "log"),
         ("params", .obj [("level", .str "info"),
           ("message", .str "Traceback (most recent call last):\nValueError: No method y found.")])]),
       .write "\n\n", .flush,
       .dump (errorResponse (.str "y") (.num 2)), .write "\n\n", .flush] :=
  ⟨by decide, rfl,
   read_loop_retains_last_segment 3 freshPlugin framedResult "" framedInput
     "PARTIAL" [] (by decide) rfl, rfl⟩

/-- The spec's literal framing example. -/
def specFramingInput : String := "\x7b\"...\":1\x7d\n\n\x7b\"...\":2\x7d\n\nPARTIAL"

/-- Counterexample for C1 as stated: on the spec's own example input the
first decoded message has no `method` key, so the error path of
`_multi_dispatch` raises `KeyError` — the loop terminates instead of
dispatching the two messages and retaining `PARTIAL`. -/
theorem spec_framing_example_crashes :
    run 3 freshPlugin [specFramingInput] = .error (.keyError "method") := rfl

/-! ### Claim C4 — the init handshake -/

/-- The `init` request with the given options, configuration and id. -/
def initReqOf (o c idv : JVal) : JVal :=
  .obj [("method", .str "init"),
        ("params", .obj [("options", o), ("configuration", c)]), ("id", idv)]

/-- Dispatching `init` while the built-in is installed and a user handler is
stashed swaps the user handler back in and re-dispatches the same request
with the remaining fuel. -/
theorem dispatch_init_builtin (n : Nat) (p : Plugin) (g : Handler)
    (o c idv : JVal)
    (hl : dictGet p.methods "init" = some initHandler)
    (hinit : p.init = some g) :
    dispatchFuel (n + 1) p (initReqOf o c idv) =
      dispatchFuel n { p with methods := dictSet p.methods "init" g, init := none }
        (initReqOf o c idv) := by
  have hm : pyGetItem (initReqOf o c idv) "method" = .ok (.str "init") := rfl
  have hp : pyGetItem (initReqOf o c idv) "params" =
      .ok (.obj [("options", o), ("configuration", c)]) := rfl
  have hbi : bindArgs initHandler.params
      (posArgs (.obj [("options", o), ("configuration", c)]))
      (injectReserved (initHandler.params.map Prod.fst) (initReqOf o c idv)
        (kwArgs (.obj [("options", o), ("configuration", c)]))) =
      .ok [("options", .json o), ("configuration", .json c),
           ("request", .requestRef (initReqOf o c idv))] := rfl
  have hbody : initHandler.body = HandlerBody.initBuiltin := rfl
  simp only [dispatchFuel, hm, hp, hl, hbi, hinit, hbody]

/-- Claim C4 (amended): when a user `init` handler exists, the stash
installed by `run` makes the first `init` dispatch re-dispatch to the user
handler exactly once, restoring it as the registry's `init` entry and
clearing the stash; a second `init` dispatch then invokes the user handler
directly, in the same state.  (When no user `init` handler was ever
registered, dispatching `init` instead fails with
`ValueError: No method init found.` — see the counterexample.) -/
theorem init_handshake_restores_user_handler (fuel : Nat) (p : Plugin)
    (h : Handler) (f : List (String × PVal) → Except String JVal)
    (o c idv : JVal) (bound : List (String × PVal)) (v : JVal)
    (hreg : dictGet p.methods "init" = some h)
    (hb : h.body = .pure f)
    (hbind : bindArgs h.params (posArgs (.obj [("options", o), ("configuration", c)]))
      (injectReserved (h.params.map Prod.fst) (initReqOf o c idv)
        (kwArgs (.obj [("options", o), ("configuration", c)]))) = .ok bound)
    (hf : f bound = .ok v) :
    dispatchFuel (fuel + 2) (runStash p) (initReqOf o c idv) =
      (.ok v, { p with init := none }) ∧
    dispatchFuel (fuel + 1) { p with init := none } (initReqOf o c idv) =
      (.ok v, { p with init := none }) := by
  have hsecond : dispatchFuel (fuel + 1) { p with init := none } (initReqOf o c idv) =
      (.ok v, { p with init := none }) :=
    dispatch_pure_ok fuel _ _ "init" h f (.obj [("options", o), ("configuration", c)])
      bound v rfl rfl hreg hb hbind hf
  refine ⟨?_, hsecond⟩
  have hstash : runStash p =
      { p with init := some h, methods := dictSet p.methods "init" initHandler } := by
    simp only [runStash, hreg]
  rw [hstash]
  have hswap := dispatch_init_builtin (fuel + 1)
    { p with init := some h, methods := dictSet p.methods "init" initHandler }
    h o c idv (dictGet_dictSet_self _ _ _) rfl
  rw [hswap]
  have hms : dictSet (dictSet p.methods "init" initHandler) "init" h = p.methods := by
    rw [dictSet_dictSet]
    exact dictSet_eq_of_get _ _ _ hreg
  rw [show ({ p with init := some h, methods := dictSet p.methods "init" initHandler } :
        Plugin).methods = dictSet p.methods "init" initHandler from rfl] at hswap
  simp only [hms]
  exact hsecond

/-- The user `init` handler used in the witness. -/
def userInitBody (bound : List (String × PVal)) : Except String JVal :=
  match dictGet bound "options" with
  | some _ => .ok (.str "inited")
  | none => .error "no options"

def userInitHandler : Handler :=
  { params := [("options", none), ("configuration", none)],
    doc := some "Initialize.", body := .pure userInitBody }

/-- A plugin that registered a user `init` handler. -/
def initPlugin : Plugin :=
  { methods := [("getmanifest", getmanifestHandler), ("init", userInitHandler)],
    init := none, out := [] }

/-- Witness for C4: on `initPlugin`, after the stash, the first `init`
dispatch returns the user handler's value and restores the user handler;
the second invokes it directly. -/
theorem init_handshake_restores_user_handler_witness :
    dispatchFuel 5 (runStash initPlugin) (initReqOf (.obj []) (.obj []) (.num 0)) =
      (.ok (.str "inited"), { initPlugin with init := none }) ∧
    dispatchFuel 4 { initPlugin with init := none }
        (initReqOf (.obj []) (.obj []) (.num 0)) =
      (.ok (.str "inited"), { initPlugin with init := none }) :=
  init_handshake_restores_user_handler 3 initPlugin userInitHandler userInitBody
    (.obj []) (.obj []) (.num 0)
    [("options", .json (.obj [])), ("configuration", .json (.obj []))]
    (.str "inited") rfl rfl rfl rfl

/-- Counterexample for C4 as stated: with no user `init` handler ever
registered, `init` is simply not in the registry, so dispatching it raises
`ValueError` instead of returning null without error. -/
theorem init_without_handler_errors :
    (dispatchFuel 3 (runStash freshPlugin) (initReqOf (.obj []) (.obj []) (.num 0))).1 =
      .error (.valueError "No method init found.") := rfl

/-! ### Claim C6 — stream redirection -/

/-- A freshly constructed `PluginStream` over a fresh plugin. -/
def streamStart : PluginStream :=
  { plugin := freshPlugin, level := "info", buff := "" }

/-- The log notification payload `Plugin.log` emits. -/
def logNotification (level message : String) : JVal :=
  .obj [("jsonrpc", .str "2.0"), ("method", .str "log"),
        ("params", .obj [("level", .str level), ("message", .str message)])]

/-- Claim C6 (amended): writing `"alpha\nbeta"` to a fresh redirector emits
no log notification at all — `write` only flushes when the payload ends in
a newline — and buffers the whole payload; the subsequent write of `"\n"`
then flushes both `"alpha"` and `"beta"`, in order, as two log lines,
leaving the buffer empty. -/
theorem stream_write_flush_trace :
    ((streamStart.write "alpha\nbeta").1.buff = "alpha\nbeta" ∧
     (streamStart.write "alpha\nbeta").1.plugin.out = []) ∧
    (((streamStart.write "alpha\nbeta").1.write "\n").1.buff = "" ∧
     ((streamStart.write "alpha\nbeta").1.write "\n").1.plugin.out =
       [.dump (logNotification "info" "alpha"), .write "\n\n", .flush,
        .dump (logNotification "info" "beta"), .write "\n\n", .flush]) :=
  ⟨⟨rfl, rfl⟩, ⟨rfl, rfl⟩⟩

/-- Counterexample for C6 as stated: the single write of `"alpha\nbeta"`
emits no log notification (the claim promises exactly one, containing
`"alpha"`) and retains the entire payload, not just `"beta"`. -/
theorem stream_write_no_newline_no_flush :
    (streamStart.write "alpha\nbeta").1.plugin.out = [] ∧
    (streamStart.write "alpha\nbeta").1.buff = "alpha\nbeta" ∧
    "alpha\nbeta" ≠ "beta" :=
  ⟨rfl, rfl, by decide⟩
